import Mathlib

/-!
Verification of the CocktailIQ molecular-profiling / balance-scoring /
recommendation pipeline.

The Python sources are shallowly embedded over exact rational arithmetic
(`ℚ`): `numpy` float operations on the 5-dimension taste vectors become the
corresponding exact rational operations, `np.mean`/`np.var` become `npMean` /
`npVar` (population variance, numpy's default `ddof=0`), and Python dicts
keyed by the five fixed taste dimensions become the `TasteVector` structure.
Functions that in Python signal "not found" through an `{'error': ...}`
dictionary are embedded as `Except AnalysisError` values.

Embedded sources:
  * `src/analysis/molecular_profile.py` — `CocktailAnalyzer`
    (`_find_cocktail`, `_aggregate_profiles`, `_compute_overall_balance`,
    `analyze_cocktail`);
  * `src/recommendation/optimizer.py` — `CocktailModifier.modify_cocktail`
    and `FlavorOptimizer._identify_imbalances`;
  * `src/recommendation/optimizer_v2.py` — `FlavorOptimizerV2`
    (`_calculate_adaptive_amount`, `should_recommend_changes`,
    `recommend_improvements`, `_identify_imbalances`,
    `_find_corrective_ingredients`);
  * `src/recommendation/optimizer_v3.py` — `FlavorOptimizerV3`
    (`find_best_modification` candidate selection, `recommend_improvements`,
    `_find_corrective_ingredients`);
  * `src/recommendation/optimizer_v4.py` — `FlavorOptimizerV4`
    (`get_plausibility_score`, `rank_recommendations_with_plausibility`,
    `find_best_modification`).

Display-only fields of the Python dictionaries (human-readable `reason`
strings, the `predicted_impact` strings, the keyword/functional-group
tables, and the value of the aggregated profile's average-molecular-weight
entry, none of which feed back into any computation checked here) are not
carried by the embedding; every field that any checked computation reads
is, and so is every exception a modelled computation can raise — in
particular the `np.average` failure modes of `_aggregate_profiles`.
-/

namespace CocktailIQ

/-- The five fixed taste dimensions (`taste_dimensions` in
`molecular_profile.py`, in source order: sweet, sour, bitter, savory,
aromatic). -/
inductive Dim
  | sweet
  | sour
  | bitter
  | savory
  | aromatic
deriving DecidableEq, Fintype

/-- The dimensions in the iteration order of the Python dicts
(`['sweet', 'sour', 'bitter', 'savory', 'aromatic']`). -/
def allDims : List Dim := [Dim.sweet, Dim.sour, Dim.bitter, Dim.savory, Dim.aromatic]

/-- A taste vector: the `taste_scores` dictionary mapping each of the five
dimensions to a rational score. -/
structure TasteVector where
  sweet : ℚ
  sour : ℚ
  bitter : ℚ
  savory : ℚ
  aromatic : ℚ
deriving DecidableEq

/-- Dictionary access `taste_scores[dim]`. -/
def TasteVector.get (v : TasteVector) : Dim → ℚ
  | Dim.sweet => v.sweet
  | Dim.sour => v.sour
  | Dim.bitter => v.bitter
  | Dim.savory => v.savory
  | Dim.aromatic => v.aromatic

/-- `list(taste_scores.values())` in the dict's insertion order. -/
def TasteVector.scores (v : TasteVector) : List ℚ :=
  [v.sweet, v.sour, v.bitter, v.savory, v.aromatic]

/-- The all-zero taste vector (the `taste_scores` of `_empty_profile`). -/
def tvZero : TasteVector := ⟨0, 0, 0, 0, 0⟩

/-- Python's `str.lower()` over the string's character list (the
ingredient and cocktail names involved are ASCII, where `Char.toLower`
and `str.lower()` agree). -/
def pyLower (s : String) : String := String.mk (s.data.map Char.toLower)

/-- Python's `str.strip()`: leading and trailing whitespace dropped. -/
def pyStrip (s : String) : String :=
  String.mk (((s.data.dropWhile Char.isWhitespace).reverse.dropWhile
    Char.isWhitespace).reverse)

/-- `np.mean` of a list of rationals. -/
def npMean (l : List ℚ) : ℚ := l.sum / l.length

/-- `np.var` of a list of rationals: numpy's population variance
(mean of squared deviations, `ddof=0`). -/
def npVar (l : List ℚ) : ℚ :=
  ((l.map fun x => (x - npMean l) ^ 2).sum) / l.length

/-- `CocktailAnalyzer._compute_overall_balance`
(`molecular_profile.py` 376-400): returns 0.0 when the score list is
empty or every score is 0, otherwise `1.0 / (1.0 + variance)`. -/
def computeOverallBalance (v : TasteVector) : ℚ :=
  let scores := v.scores
  if scores.isEmpty || scores.all fun s => s == 0 then 0
  else 1 / (1 + npVar scores)

/-- `abs(score - mean)` maximised over the five scores, as in
`should_recommend_changes`.  Python's `max(...)` over the (non-empty,
non-negative) generator is a fold; folding from 0 is exact because every
`abs` is non-negative. -/
def maxAbsDev (v : TasteVector) : ℚ :=
  let mean := npMean v.scores
  (v.scores.map fun s => |s - mean|).foldl max 0

/-- The slice of an ingredient profile that the optimizer reads:
`num_molecules` and `taste_scores` (`get_ingredient_profile`). -/
structure IngredientProfile where
  num_molecules : ℕ
  taste_scores : TasteVector
deriving DecidableEq

/-- The slice of the aggregated profile that downstream code reads:
`taste_scores` and `total_volume`. -/
structure AggregatedProfile where
  taste_scores : TasteVector
  total_volume : ℚ
deriving DecidableEq

/-- The volume list and total actually used by `_aggregate_profiles`:
if `total_volume == 0` the code replaces the volumes by `[1.0] * n` and
the total by `n` (uniform fallback), otherwise keeps them. -/
def effectiveVolumes (nProfiles : ℕ) (volumes : List ℚ) : List ℚ × ℚ :=
  let total := volumes.sum
  if total = 0 then (List.replicate nProfiles (1 : ℚ), (nProfiles : ℚ))
  else (volumes, total)

/-- The per-ingredient weights `volume / total_volume` used by
`_aggregate_profiles` (after the zero-total fallback). -/
def volumeWeights (nProfiles : ℕ) (volumes : List ℚ) : List ℚ :=
  let ev := effectiveVolumes nProfiles volumes
  ev.1.map fun v => v / ev.2

/-- `acc[dim] += p[dim] * w` for all five dimensions. -/
def TasteVector.addScaled (acc : TasteVector) (w : ℚ) (p : TasteVector) : TasteVector :=
  ⟨acc.sweet + p.sweet * w, acc.sour + p.sour * w, acc.bitter + p.bitter * w,
   acc.savory + p.savory * w, acc.aromatic + p.aromatic * w⟩

/-- The possible outcomes of `_aggregate_profiles`: the `{}` returned for
an empty profile list; the exceptions `np.average` can raise while
computing `avg_molecular_weight` (`TypeError` when its values and weights
lists have different lengths, `ZeroDivisionError` — "Weights sum to zero,
can't be normalized" — when the weights sum to zero, in particular when
no profile has molecular data at all); or the aggregated profile. -/
inductive AggregateResult
  | emptyDict
  | typeError
  | zeroDivisionError
  | ok (agg : AggregatedProfile)
deriving DecidableEq

/-- The weights list `np.average` receives on `molecular_profile.py` 366:
`[v for p, v in zip(profiles, volumes) if p['num_molecules'] > 0]`, with
`volumes` the post-fallback volume list. -/
def npAvgWeights (profiles : List IngredientProfile) (volumes : List ℚ) : List ℚ :=
  ((profiles.zip (effectiveVolumes profiles.length volumes).1).filter
    fun pv => decide (0 < pv.1.num_molecules)).map fun pv => pv.2

/-- `CocktailAnalyzer._aggregate_profiles` (`molecular_profile.py` 319-374)
restricted to the fields downstream code reads: `emptyDict` models the
`{}` returned for an empty profile list; otherwise the taste vector is
the volume-weighted sum `Σ weight_i × taste_i` with
`weight_i = volume_i / total` over `zip(profiles, volumes)` (Python `zip`
truncates to the shorter list, as `List.zip` does).  The
`avg_molecular_weight` entry of the result is display-only (no embedded
code reads it), but the `np.average` call that computes it (lines
364-366) is not: it raises `TypeError` when its values list (the
molecule-bearing profiles, drawn from ALL of `profiles`) and its weights
list (`npAvgWeights`, drawn from the zip) have different lengths, and
`ZeroDivisionError` when the weights sum to zero — so those two outcomes
are modelled, keyed on exactly the data that decides them.  (The
`np.isnan` fallback on line 372 only shapes the unread value.) -/
def aggregateProfiles (profiles : List IngredientProfile) (volumes : List ℚ) :
    AggregateResult :=
  if profiles.isEmpty then AggregateResult.emptyDict
  else
    let ev := effectiveVolumes profiles.length volumes
    let taste := (profiles.zip ev.1).foldl
      (fun acc pv => acc.addScaled (pv.2 / ev.2) pv.1.taste_scores) tvZero
    let mwValueCount := (profiles.filter fun p => decide (0 < p.num_molecules)).length
    let mwWeights := npAvgWeights profiles volumes
    if mwValueCount ≠ mwWeights.length then AggregateResult.typeError
    else if mwWeights.sum = 0 then AggregateResult.zeroDivisionError
    else AggregateResult.ok ⟨taste, ev.2⟩

/-- A cocktail record: name, ingredient names, and the measures' `value`
fields in millilitres (`m.get('value', 30.0)` is resolved upstream). -/
structure Cocktail where
  name : String
  ingredients : List String
  measures : List ℚ

/-- `CocktailAnalyzer._find_cocktail` (`molecular_profile.py` 301-317):
first cocktail whose name matches case-insensitively, else `None`. -/
def findCocktail (db : List Cocktail) (name : String) : Option Cocktail :=
  db.find? fun c => pyLower c.name == pyLower name

/-- The failures the analysis layer can signal: `notFound` models the
`{'error': "Cocktail '<name>' not found"}` dictionary; `keyError` models
the `KeyError` a caller would hit reading `aggregated['taste_scores']`
from the `{}` returned for an ingredient-less cocktail; `typeError` and
`zeroDivisionError` are the uncaught exceptions `np.average` can raise
inside `_aggregate_profiles` (see `AggregateResult`), which propagate out
of `analyze_cocktail`. -/
inductive AnalysisError
  | notFound (name : String)
  | keyError
  | typeError
  | zeroDivisionError
deriving DecidableEq

/-- The slice of `analyze_cocktail`'s result dictionary that the
optimizers read. -/
structure Analysis where
  ingredients : List String
  balance_scores : TasteVector
  overall_balance : ℚ
  total_volume : ℚ
deriving DecidableEq

/-- `CocktailAnalyzer.analyze_cocktail` (`molecular_profile.py` 262-299):
look the cocktail up by name (explicit not-found error if absent), profile
each ingredient, aggregate by volume, and score the balance. -/
def analyzeCocktail (profileOf : String → IngredientProfile) (db : List Cocktail)
    (name : String) : Except AnalysisError Analysis :=
  match findCocktail db name with
  | none => Except.error (AnalysisError.notFound name)
  | some c =>
    let profiles := c.ingredients.map profileOf
    match aggregateProfiles profiles c.measures with
    | AggregateResult.emptyDict => Except.error AnalysisError.keyError
    | AggregateResult.typeError => Except.error AnalysisError.typeError
    | AggregateResult.zeroDivisionError => Except.error AnalysisError.zeroDivisionError
    | AggregateResult.ok agg =>
      Except.ok ⟨c.ingredients, agg.taste_scores,
        computeOverallBalance agg.taste_scores, agg.total_volume⟩

/-! ### `CocktailModifier.modify_cocktail` (`optimizer.py` 36-120) -/

/-- One entry of the `modifications` list: `action`, `ingredient`, the
optional `amount` (`mod.get('amount', default)`) and the optional
`substitute_with`. -/
structure Modification where
  action : String
  ingredient : String
  amount : Option ℚ
  substitute_with : Option String
deriving DecidableEq

/-- The body of the `for mod in modifications` loop of `modify_cocktail`:
one action applied to the (ingredients, measures) pair.  `list.index`
(first occurrence) is `findIdx?`; the `if ingredient in ...` guard is the
`none` fallthrough.  `mod.get('substitute_with')` with the key absent
would put Python's `None` in the list; that degenerate case is embedded
as the empty string. -/
def applyModification (st : List String × List ℚ) (m : Modification) :
    List String × List ℚ :=
  if m.action == "add" then
    (st.1 ++ [m.ingredient], st.2 ++ [m.amount.getD 30])
  else if m.action == "remove" then
    match st.1.findIdx? fun i => i == m.ingredient with
    | some idx => (st.1.eraseIdx idx, st.2.eraseIdx idx)
    | none => st
  else if m.action == "increase" then
    match st.1.findIdx? fun i => i == m.ingredient with
    | some idx => (st.1, st.2.set idx (st.2.getD idx 0 + m.amount.getD 10))
    | none => st
  else if m.action == "decrease" then
    match st.1.findIdx? fun i => i == m.ingredient with
    | some idx => (st.1, st.2.set idx (max 0 (st.2.getD idx 0 - m.amount.getD 10)))
    | none => st
  else if m.action == "substitute" then
    match st.1.findIdx? fun i => i == m.ingredient with
    | some idx => (st.1.set idx (m.substitute_with.getD ""), st.2)
    | none => st
  else st

/-- The slice of `modify_cocktail`'s result dictionary that callers read:
the original balance, the modified ingredient list and its re-analysed
scores, and `balance_improved = balance_change > 0` from
`_analyze_impact`. -/
structure ModifyResult where
  original_balance : ℚ
  modified_ingredients : List String
  modified_scores : TasteVector
  modified_balance : ℚ
  balance_improved : Bool
deriving DecidableEq

/-- `CocktailModifier.modify_cocktail` (`optimizer.py` 36-120): analyse the
base cocktail (propagating its `{'error': ...}` result unchanged, lines
51-55), apply the modifications in order, and re-analyse from scratch. -/
def modifyCocktailV1 (profileOf : String → IngredientProfile) (db : List Cocktail)
    (name : String) (mods : List Modification) : Except AnalysisError ModifyResult :=
  match analyzeCocktail profileOf db name with
  | Except.error e => Except.error e
  | Except.ok a =>
    match findCocktail db name with
    | none => Except.error (AnalysisError.notFound name)
    | some c =>
      let st := mods.foldl applyModification (a.ingredients, c.measures)
      let profiles := st.1.map profileOf
      match aggregateProfiles profiles st.2 with
      | AggregateResult.emptyDict => Except.error AnalysisError.keyError
      | AggregateResult.typeError => Except.error AnalysisError.typeError
      | AggregateResult.zeroDivisionError => Except.error AnalysisError.zeroDivisionError
      | AggregateResult.ok agg =>
        let newBalance := computeOverallBalance agg.taste_scores
        Except.ok ⟨a.overall_balance, st.1, agg.taste_scores, newBalance,
          decide (0 < newBalance - a.overall_balance)⟩

/-! ### Imbalance detection (`optimizer.py` 258-312, `optimizer_v2.py`
241-284, `optimizer_v3.py` 332-372) -/

inductive IssueType
  | too_high
  | too_low
deriving DecidableEq

inductive Priority
  | high
  | medium
deriving DecidableEq

/-- One imbalance dictionary: dimension, `'too_high'`/`'too_low'`,
priority, and (for statistically detected ones only) `current_value`. -/
structure Imbalance where
  dimension : Dim
  type : IssueType
  priority : Priority
  current_value : Option ℚ
deriving DecidableEq

/-- The `target_map` of `_identify_imbalances` (identical in all
versions): `'balanced'` maps to `None` and unknown targets are skipped,
both embedded as `none`. -/
def targetMap (t : String) : Option (Dim × String) :=
  if t == "sweeter" then some (Dim.sweet, "increase")
  else if t == "more_sour" then some (Dim.sour, "increase")
  else if t == "less_bitter" then some (Dim.bitter, "decrease")
  else if t == "more_aromatic" then some (Dim.aromatic, "increase")
  else none

/-- Decidable form of the float test `score > mean + std * k` where
`std = sqrt var`: for `0 ≤ k` and `0 ≤ var` it is equivalent to
`mean < score ∧ k² · var < (score - mean)²` (the bridge lemma
`gtKStd_eq_true_iff` below proves the equivalence over `ℝ`). -/
def gtKStd (score mean var k : ℚ) : Bool :=
  decide (mean < score) && decide (k ^ 2 * var < (score - mean) ^ 2)

/-- Decidable form of `score < mean - std * k` (see `gtKStd`). -/
def ltKStd (score mean var k : ℚ) : Bool :=
  decide (score < mean) && decide (k ^ 2 * var < (mean - score) ^ 2)

/-- `_identify_imbalances`, parametrised by the sensitivity constant `k`:
`optimizer.py` 258-312 uses `k = 1` (`score > mean + std`), while
`optimizer_v2.py` 241-284 and `optimizer_v3.py` 332-372 use `k = 0.7`
(`std_score * 0.7`).  A caller-supplied target appends its forced
imbalance first; the statistical scan then appends a `too_high` entry for
every score above `mean + std·k` and a `too_low` entry for every score
below `mean - std·k` that is also below the absolute floor `0.3`. -/
def identifyImbalances (k : ℚ) (v : TasteVector) (target : Option String) :
    List Imbalance :=
  let forced : List Imbalance :=
    match target with
    | none => []
    | some t =>
      match targetMap t with
      | some (d, dir) =>
        [⟨d, if dir == "increase" then IssueType.too_low else IssueType.too_high,
          Priority.high, none⟩]
      | none => []
  let mean := npMean v.scores
  let var := npVar v.scores
  let auto : List Imbalance := allDims.filterMap fun d =>
    let score := v.get d
    if gtKStd score mean var k then
      some ⟨d, IssueType.too_high, Priority.medium, some score⟩
    else if ltKStd score mean var k && decide (score < 0.3) then
      some ⟨d, IssueType.too_low, Priority.medium, some score⟩
    else none
  forced ++ auto

/-! ### Adaptive amounts and thresholds (`optimizer_v2.py` 93-161,
`optimizer_v3.py` 292-330) -/

/-- Python's `round(q, 1)`: round to one decimal place.  (Python rounds
half to even; `round` here rounds half up — the two differ only at exact
`.05` ties, which none of the checked computations hits.) -/
def roundTo1 (q : ℚ) : ℚ := ((round (10 * q) : ℤ) : ℚ) / 10

/-- `_calculate_adaptive_amount` (identical in `optimizer_v2.py` 93-129
and `optimizer_v3.py` 292-312): `total_volume × 0.12 × balance_factor ×
severity_factor`, clamped into [5, 30] and rounded to one decimal. -/
def calculateAdaptiveAmount (currentBalance imbalanceMagnitude totalVolume : ℚ) : ℚ :=
  let basePercentage : ℚ := 0.12
  let balanceFactor : ℚ :=
    if 0.98 ≤ currentBalance then 0
    else if 0.95 ≤ currentBalance then 0.25
    else if 0.90 ≤ currentBalance then 0.5
    else if 0.80 ≤ currentBalance then 0.75
    else 1
  let severityFactor := min (imbalanceMagnitude / 0.3) 2
  let amount := totalVolume * basePercentage * balanceFactor * severityFactor
  roundTo1 (max 5 (min amount 30))

/-- Modelled from the spec: the `balance_factor` step function as §4.6
words it — "0 at ≥0.98, 0.25 at ≥0.95, 0.5 at ≥0.90, 0.75 at ≥0.80, else
1.0".  Kept separate from `calculateAdaptiveAmount` so the claimed amount
formula can be stated against the spec's own step function. -/
def specBalanceFactor (balance : ℚ) : ℚ :=
  if 0.98 ≤ balance then 0
  else if 0.95 ≤ balance then 0.25
  else if 0.90 ≤ balance then 0.5
  else if 0.80 ≤ balance then 0.75
  else 1

/-- Modelled from the spec: `severity_factor = min(|deviation| / 0.3, 2.0)`
(§4.6), taking the already non-negative deviation magnitude. -/
def specSeverityFactor (deviation : ℚ) : ℚ := min (deviation / 0.3) 2

/-- `should_recommend_changes` (`optimizer_v2.py` 131-161; v3's
`_should_recommend_changes`, `optimizer_v3.py` 314-330, is textually
identical).  Python's early-return ladder is flattened into one
conditional chain: the `>= 0.95` block falls through to the `>= 0.85`
test when the maximal deviation is at least 0.25. -/
def shouldRecommendChanges (balance : ℚ) (v : TasteVector) : Bool × String :=
  if 0.98 ≤ balance then
    (false, "Cocktail is already excellently balanced! No changes recommended.")
  else if 0.95 ≤ balance ∧ maxAbsDev v < 0.25 then
    (false, "Cocktail is very well balanced. Only minor refinements possible.")
  else if 0.85 ≤ balance then
    (true, "Good cocktail with room for refinement")
  else
    (true, "Cocktail has imbalances that could be improved")

/-! ### Corrective ingredients and recommendations (`optimizer_v2.py`
163-337, `optimizer_v3.py` 225-290, 374-419) -/

/-- One suggestion dictionary, restricted to the computed fields:
`ingredient`, `amount`, and `ingredient_taste_profile` (the constant
`action = 'add'` and the display strings `reason`/`predicted_impact` are
dropped). -/
structure Suggestion where
  ingredient : String
  amount : ℚ
  taste_profile : TasteVector
deriving DecidableEq

/-- Stable descending insertion: `x` goes in front of the first element
whose key is at most `key x`, so among equal keys earlier input elements
stay earlier — the order Python's stable `sorted(..., reverse=True)`
produces. -/
def insertDescBy {α : Type} (key : α → ℚ) (x : α) : List α → List α
  | [] => [x]
  | y :: ys => if key x < key y then y :: insertDescBy key x ys else x :: y :: ys

/-- Stable descending insertion sort: Python's `sorted(l, key=key,
reverse=True)`. -/
def sortDescBy {α : Type} (key : α → ℚ) : List α → List α
  | [] => []
  | x :: xs => insertDescBy key x (sortDescBy key xs)

/-- Stable ascending insertion (see `insertDescBy`). -/
def insertAscBy {α : Type} (key : α → ℚ) (x : α) : List α → List α
  | [] => [x]
  | y :: ys => if key y < key x then y :: insertAscBy key x ys else x :: y :: ys

/-- Stable ascending insertion sort: Python's `sorted(l, key=key)`. -/
def sortAscBy {α : Type} (key : α → ℚ) : List α → List α
  | [] => []
  | x :: xs => insertAscBy key x (sortAscBy key xs)

/-- The `dimension_ingredients` table of
`FlavorOptimizerV2._find_corrective_ingredients` (`optimizer_v2.py`
294-300). -/
def dimensionIngredientsV2 : Dim → List String
  | Dim.sweet => ["simple syrup", "honey", "agave syrup", "sugar"]
  | Dim.sour => ["lemon juice", "lime juice", "grapefruit juice"]
  | Dim.bitter => ["angostura bitters", "campari", "coffee"]
  | Dim.aromatic => ["mint", "basil", "bitters"]
  | Dim.savory => ["celery", "tomato juice"]

/-- The `dimension_ingredients` table of
`FlavorOptimizerV3._find_corrective_ingredients` (`optimizer_v3.py`
379-385). -/
def dimensionIngredientsV3 : Dim → List String
  | Dim.sweet => ["simple syrup", "honey", "agave syrup", "sugar", "maple syrup"]
  | Dim.sour => ["lemon juice", "lime juice", "grapefruit juice"]
  | Dim.bitter => ["angostura bitters", "campari", "aperol", "coffee"]
  | Dim.aromatic => ["mint", "basil", "bitters", "orange bitters"]
  | Dim.savory => ["celery", "tomato juice"]

/-- The `contrasting` table (identical in every optimizer version): every
dimension's `too_high` corrective is drawn from `'sweet'` except `sweet`
itself, which maps to `'sour'`. -/
def contrastDim : Dim → Dim
  | Dim.sweet => Dim.sour
  | Dim.sour => Dim.sweet
  | Dim.bitter => Dim.sweet
  | Dim.aromatic => Dim.sweet
  | Dim.savory => Dim.sweet

/-- `_find_corrective_ingredients`, shared shape of the v2/v3 versions
(`optimizer_v2.py` 286-337, `optimizer_v3.py` 374-419): candidates come
from the same-dimension table for `too_low` and from the contrast
dimension's table for `too_high`; ingredients already present
(case-insensitively) or with no molecular data are dropped; survivors are
stably sorted by their own score in the flagged dimension — descending
for `too_low`, ascending otherwise (`reverse=(issue_type == 'too_low')`)
— and the top 5 kept. -/
def findCorrectiveIngredients (table : Dim → List String)
    (profileOf : String → IngredientProfile) (dimension : Dim)
    (issueType : IssueType) (existing : List String) : List Suggestion :=
  let candidates :=
    if issueType = IssueType.too_low then table dimension
    else table (contrastDim dimension)
  let suggestions := candidates.filterMap fun ing =>
    if (existing.map pyLower).contains (pyLower ing) then none
    else
      let p := profileOf ing
      if 0 < p.num_molecules then some (⟨ing, 15, p.taste_scores⟩ : Suggestion)
      else none
  let sorted :=
    if issueType = IssueType.too_low then
      sortDescBy (fun s => s.taste_profile.get dimension) suggestions
    else
      sortAscBy (fun s => s.taste_profile.get dimension) suggestions
  sorted.take 5

/-- One entry of the `recommendations` list: the `issue` string and the
suggestion (with its amount overwritten by the adaptive amount). -/
structure RecEntry where
  issue : String
  recommendation : Suggestion
deriving DecidableEq

def dimName : Dim → String
  | Dim.sweet => "sweet"
  | Dim.sour => "sour"
  | Dim.bitter => "bitter"
  | Dim.savory => "savory"
  | Dim.aromatic => "aromatic"

def issueText : IssueType → String
  | IssueType.too_high => "too high"
  | IssueType.too_low => "too low"

/-- The recommendation-building loop of
`FlavorOptimizerV2.recommend_improvements` (`optimizer_v2.py` 198-231):
for each imbalance, the top 3 corrective suggestions, each with the
adaptive amount computed from the current balance, the flagged
dimension's deviation from the mean, and the total volume. -/
def recEntriesV2 (profileOf : String → IngredientProfile) (a : Analysis)
    (target : Option String) : List RecEntry :=
  (identifyImbalances 0.7 a.balance_scores target).flatMap fun imb =>
    let mean := npMean a.balance_scores.scores
    let mag := |a.balance_scores.get imb.dimension - mean|
    let suggestions :=
      (findCorrectiveIngredients dimensionIngredientsV2 profileOf imb.dimension
        imb.type a.ingredients).take 3
    suggestions.map fun s =>
      ⟨dimName imb.dimension ++ " is " ++ issueText imb.type,
       ⟨s.ingredient, calculateAdaptiveAmount a.overall_balance mag a.total_volume,
        s.taste_profile⟩⟩

/-- The recommendation-building loop of
`FlavorOptimizerV3.recommend_improvements` (`optimizer_v3.py` 252-282):
as v2 but with the v3 ingredient table and the top 5 suggestions per
imbalance. -/
def recEntriesV3 (profileOf : String → IngredientProfile) (a : Analysis)
    (target : Option String) : List RecEntry :=
  (identifyImbalances 0.7 a.balance_scores target).flatMap fun imb =>
    let mean := npMean a.balance_scores.scores
    let mag := |a.balance_scores.get imb.dimension - mean|
    let suggestions :=
      (findCorrectiveIngredients dimensionIngredientsV3 profileOf imb.dimension
        imb.type a.ingredients).take 5
    suggestions.map fun s =>
      ⟨dimName imb.dimension ++ " is " ++ issueText imb.type,
       ⟨s.ingredient, calculateAdaptiveAmount a.overall_balance mag a.total_volume,
        s.taste_profile⟩⟩

/-- The result dictionary of `recommend_improvements` (v2/v3): `message`
is present exactly on the early "no changes" return. -/
structure RecResult where
  cocktail : String
  current_balance : TasteVector
  overall_balance_score : ℚ
  message : Option String
  identified_issues : List Imbalance
  recommendations : List RecEntry
deriving DecidableEq

/-- `FlavorOptimizerV2.recommend_improvements` (`optimizer_v2.py`
163-239): analyse (propagating the not-found error), apply the smart
threshold check, and either return the empty recommendation list with the
threshold's message or build the recommendations. -/
def recommendImprovementsV2 (profileOf : String → IngredientProfile)
    (db : List Cocktail) (name : String) (target : Option String) :
    Except AnalysisError RecResult :=
  match analyzeCocktail profileOf db name with
  | Except.error e => Except.error e
  | Except.ok a =>
    let sm := shouldRecommendChanges a.overall_balance a.balance_scores
    if sm.1 = false then
      Except.ok ⟨name, a.balance_scores, a.overall_balance, some sm.2, [], []⟩
    else
      Except.ok ⟨name, a.balance_scores, a.overall_balance, none,
        identifyImbalances 0.7 a.balance_scores target,
        recEntriesV2 profileOf a target⟩

/-- `FlavorOptimizerV3.recommend_improvements` (`optimizer_v3.py`
225-290): same gate, v3 recommendation building. -/
def recommendImprovementsV3 (profileOf : String → IngredientProfile)
    (db : List Cocktail) (name : String) (target : Option String) :
    Except AnalysisError RecResult :=
  match analyzeCocktail profileOf db name with
  | Except.error e => Except.error e
  | Except.ok a =>
    let sm := shouldRecommendChanges a.overall_balance a.balance_scores
    if sm.1 = false then
      Except.ok ⟨name, a.balance_scores, a.overall_balance, some sm.2, [], []⟩
    else
      Except.ok ⟨name, a.balance_scores, a.overall_balance, none,
        identifyImbalances 0.7 a.balance_scores target,
        recEntriesV3 profileOf a target⟩

/-! ### Multi-candidate selection (`optimizer_v3.py` 147-223,
`optimizer_v4.py` 111-258) -/

/-- One tested candidate of `FlavorOptimizerV3.find_best_modification`
(`optimizer_v3.py` 193-202), restricted to the computed fields (`rank`
is `i + 1` for the i-th tested recommendation). -/
structure CandidateV3 where
  rank : ℕ
  ingredient : String
  amount : ℚ
  original_balance : ℚ
  new_balance : ℚ
  improvement : ℚ
deriving DecidableEq

/-- Python's builtin `max(l, key=key)` over a non-empty list written as a
fold: the running maximum is replaced only on a strictly greater key, so
of several maximal elements the first is returned (CPython's documented
behaviour). -/
def pyMaxBy {α : Type} (key : α → ℚ) (acc : α) : List α → α
  | [] => acc
  | y :: ys => pyMaxBy key (if key acc < key y then y else acc) ys

/-- The selection step of `FlavorOptimizerV3.find_best_modification`
(`optimizer_v3.py` 207-223): `None` for no candidates (the
`if not candidates` early return), else
`max(candidates, key=lambda x: x['improvement'])`. -/
def findBestCandidateV3 : List CandidateV3 → Option CandidateV3
  | [] => none
  | c :: cs => some (pyMaxBy (fun x => x.improvement) c cs)

/-- Modelled from the spec (§4.8): the first element of the list whose
key is greatest — "the candidate with strictly maximal improvement (or
combined_score); given a tie, the lowest original rank wins".  Written
directly as "first element whose key dominates every element's key". -/
def firstArgmax {α : Type} (key : α → ℚ) (l : List α) : Option α :=
  l.find? fun c => l.all fun d => decide (key d ≤ key c)

/-- One tested candidate of `FlavorOptimizerV4.find_best_modification`
(`optimizer_v4.py` 224-230). -/
structure CandidateV4 where
  ingredient : String
  amount : ℚ
  improvement : ℚ
  original_balance : ℚ
  new_balance : ℚ
deriving DecidableEq

/-- A candidate after `rank_recommendations_with_plausibility` has
annotated it with `plausibility` and `combined_score`. -/
structure ScoredCandidateV4 where
  cand : CandidateV4
  plausibility : ℚ
  combined_score : ℚ
deriving DecidableEq

/-- `needle in hay` on strings (Python's substring test), by direct
search over the character lists. -/
def subListOccurs (needle : List Char) : List Char → Bool
  | [] => needle.isEmpty
  | c :: rest => needle.isPrefixOf (c :: rest) || subListOccurs needle rest

/-- Python `needle in hay` for strings. -/
def strContainsSub (hay needle : String) : Bool :=
  subListOccurs needle.toList hay.toList

/-- `FlavorOptimizerV4.get_plausibility_score` (`optimizer_v4.py`
111-136): neutral 0.5 with no table; exact lowercase/stripped match
first; then the first fuzzy entry where either name contains the other;
else 0.5.  The table is the externally loaded
`ingredient_plausibility.json` as an association list in dict order. -/
def getPlausibilityScore (table : List (String × ℚ)) (ingredient : String) : ℚ :=
  if table.isEmpty then 0.5
  else
    let ing := pyStrip (pyLower ingredient)
    match table.find? fun kv => kv.1 == ing with
    | some kv => kv.2
    | none =>
      match table.find? fun kv => strContainsSub ing kv.1 || strContainsSub kv.1 ing with
      | some kv => kv.2
      | none => 0.5

/-- The annotation loop of `rank_recommendations_with_plausibility`
(`optimizer_v4.py` 148-157): `combined_score = improvement ×
plausibility`. -/
def scoreCandidates (table : List (String × ℚ)) (cands : List CandidateV4) :
    List ScoredCandidateV4 :=
  cands.map fun c =>
    let p := getPlausibilityScore table c.ingredient
    ⟨c, p, c.improvement * p⟩

/-- `FlavorOptimizerV4.rank_recommendations_with_plausibility`
(`optimizer_v4.py` 138-162): annotate, then
`sorted(candidates, key=lambda x: x['combined_score'], reverse=True)`
(stable).  `find_best_modification` takes `ranked[0]` as the best. -/
def rankRecommendationsWithPlausibility (table : List (String × ℚ))
    (cands : List CandidateV4) : List ScoredCandidateV4 :=
  sortDescBy (fun s => s.combined_score) (scoreCandidates table cands)

/-- The methods the `CocktailAnalyzer` class defines
(`molecular_profile.py` 240-434).  `FlavorOptimizerV4.find_best_modification`
(`optimizer_v4.py` 176) calls `self.analyzer.analyze_cocktail_by_name`,
which is not among them (nor defined anywhere else in the repository), so
that call raises `AttributeError` before the method's own
`return {'error': 'Cocktail not found'}` branch can run. -/
def cocktailAnalyzerMethods : List String :=
  ["__init__", "analyze_cocktail", "_find_cocktail", "_aggregate_profiles",
   "_compute_overall_balance", "_compute_complexity"]

/-! ### Concrete data for the witnesses -/

/-- All five dimensions at 0.5: variance 0, balance 1. -/
def exHalf : TasteVector := ⟨1/2, 1/2, 1/2, 1/2, 1/2⟩

/-- A profiler that gives every ingredient the flat 0.5 vector. -/
def profilePerfect : String → IngredientProfile := fun _ => ⟨1, exHalf⟩

def dbPerfect : List Cocktail := [⟨"Perfect", ["water"], [50]⟩]

/-- What `analyzeCocktail profilePerfect dbPerfect "Perfect"` returns. -/
def aPerfect : Analysis := ⟨["water"], exHalf, 1, 50⟩

/-- Taste vector with variance 27/1250: balance 1250/1277 ≈ 0.9789,
inside [0.95, 0.98), and every deviation from the mean (0.52) below
0.25. -/
def exWell : TasteVector := ⟨7/10, 7/10, 2/5, 2/5, 2/5⟩

def profileWell : String → IngredientProfile := fun _ => ⟨1, exWell⟩

def dbWell : List Cocktail := [⟨"WellBal", ["mix"], [50]⟩]

/-- What `analyzeCocktail profileWell dbWell "WellBal"` returns. -/
def aWell : Analysis := ⟨["mix"], exWell, 1250/1277, 50⟩

/-- One dominant sweet dimension: variance 81/625, balance 625/706 ≈
0.885, so recommendations are generated. -/
def exStrong : TasteVector := ⟨9/10, 0, 0, 0, 0⟩

/-- Profiler for the `exStrong` scenario: vodka is sweet-heavy, the sour
correctives carry sour 0.8, everything else is unknown. -/
def profileStrong : String → IngredientProfile := fun s =>
  if s == "vodka" then ⟨1, exStrong⟩
  else if s == "lemon juice" || s == "lime juice" || s == "grapefruit juice" then
    ⟨1, ⟨0, 4/5, 0, 0, 0⟩⟩
  else ⟨0, tvZero⟩

def dbStrong : List Cocktail := [⟨"Strong", ["vodka"], [100]⟩]

/-- What `analyzeCocktail profileStrong dbStrong "Strong"` returns. -/
def aStrong : Analysis := ⟨["vodka"], exStrong, 625/706, 100⟩

/-- Two v3 candidates tied on improvement, ranks 1 and 2. -/
def candTieA : CandidateV3 := ⟨1, "a", 10, 0, 0, 7/100⟩

def candTieB : CandidateV3 := ⟨2, "b", 10, 0, 0, 7/100⟩

/-- Taste vector whose statistical scan (k = 1) flags `sour` as
`too_high`: mean 0.18, variance 0.1296. -/
def exSourHeavy : TasteVector := ⟨0, 9/10, 0, 0, 0⟩

/-! ## Theorems

General lemmas first, then one theorem (plus counterexample / witness,
where the claim calls for them) per checked claim. -/

/-- numpy's variance is never negative. -/
lemma npVar_nonneg (l : List ℚ) : 0 ≤ npVar l := by
  unfold npVar
  apply div_nonneg
  · apply List.sum_nonneg
    intro x hx
    obtain ⟨y, _, rfl⟩ := List.mem_map.mp hx
    positivity
  · positivity

/-- On a vector that is not all-zero, `_compute_overall_balance` takes
its generic branch `1 / (1 + variance)`. -/
lemma computeOverallBalance_of_ne_zero (v : TasteVector) (h : v ≠ tvZero) :
    computeOverallBalance v = 1 / (1 + npVar v.scores) := by
  obtain ⟨a, b, c, d, e⟩ := v
  have hz : ¬(a = 0 ∧ b = 0 ∧ c = 0 ∧ d = 0 ∧ e = 0) := by
    rintro ⟨rfl, rfl, rfl, rfl, rfl⟩
    exact h rfl
  simp only [computeOverallBalance, TasteVector.scores, List.isEmpty_cons,
    Bool.false_or, List.all_cons, List.all_nil, Bool.and_true, beq_iff_eq,
    Bool.and_eq_true, decide_eq_true_eq]
  rw [if_neg]
  simp only [decide_eq_true_eq, Bool.and_eq_true, beq_iff_eq, List.all_nil,
    Bool.and_true, not_and]
  intro h1 h2 h3 h4 h5
  exact hz ⟨h1, h2, h3, h4, h5⟩


/-! ### C1 — the balance scorer's formula and bounds -/

/-- C1 counterexample: on the all-zero taste vector (a legal vector, all
entries in [0,1] and all five equal) `_compute_overall_balance` returns
0.0 through its special case, not `1/(1+variance) = 1.0`, and the
claimed lower bound 0.8 fails there. -/
theorem zero_vector_balance_counterexample :
    computeOverallBalance tvZero = 0 ∧
    1 / (1 + npVar (TasteVector.scores tvZero)) = 1 ∧
    ¬ (4 / 5 ≤ computeOverallBalance tvZero) := by
  norm_num [computeOverallBalance, tvZero, TasteVector.scores, npVar, npMean]

set_option maxHeartbeats 1000000 in
/-- C1 (amended): for every 5-dimension taste vector with entries in
[0,1] that is not identically zero, `_compute_overall_balance` returns
`1/(1 + variance)`; the result lies in (0,1], equals 1 exactly when all
five dimensions are numerically equal, and is at least 0.8.  (On the
all-zero vector the scorer returns 0.0 instead — see the
counterexample.) -/
theorem overall_balance_properties (v : TasteVector)
    (h1 : 0 ≤ v.sweet ∧ v.sweet ≤ 1) (h2 : 0 ≤ v.sour ∧ v.sour ≤ 1)
    (h3 : 0 ≤ v.bitter ∧ v.bitter ≤ 1) (h4 : 0 ≤ v.savory ∧ v.savory ≤ 1)
    (h5 : 0 ≤ v.aromatic ∧ v.aromatic ≤ 1) (hnz : v ≠ tvZero) :
    computeOverallBalance v = 1 / (1 + npVar v.scores) ∧
    0 < computeOverallBalance v ∧
    computeOverallBalance v ≤ 1 ∧
    (computeOverallBalance v = 1 ↔
      (v.sour = v.sweet ∧ v.bitter = v.sweet ∧ v.savory = v.sweet ∧ v.aromatic = v.sweet)) ∧
    4 / 5 ≤ computeOverallBalance v := by
  have heq := computeOverallBalance_of_ne_zero v hnz
  obtain ⟨a, b, c, d, e⟩ := v
  simp only at h1 h2 h3 h4 h5
  have hVeq : npVar (TasteVector.scores ⟨a, b, c, d, e⟩) =
      ((a - (a+b+c+d+e)/5)^2 + (b - (a+b+c+d+e)/5)^2 + (c - (a+b+c+d+e)/5)^2 +
       (d - (a+b+c+d+e)/5)^2 + (e - (a+b+c+d+e)/5)^2) / 5 := by
    simp only [npVar, npMean, TasteVector.scores, List.map_cons, List.map_nil,
      List.sum_cons, List.sum_nil, List.length_cons, List.length_nil]
    push_cast
    ring
  have hV0 : 0 ≤ npVar (TasteVector.scores ⟨a, b, c, d, e⟩) := npVar_nonneg _
  have hV4 : npVar (TasteVector.scores ⟨a, b, c, d, e⟩) ≤ 1/4 := by
    rw [hVeq, div_le_iff₀ (by norm_num : (0:ℚ) < 5)]
    nlinarith [mul_nonneg h1.1 (by linarith : (0:ℚ) ≤ 1 - a),
      mul_nonneg h2.1 (by linarith : (0:ℚ) ≤ 1 - b),
      mul_nonneg h3.1 (by linarith : (0:ℚ) ≤ 1 - c),
      mul_nonneg h4.1 (by linarith : (0:ℚ) ≤ 1 - d),
      mul_nonneg h5.1 (by linarith : (0:ℚ) ≤ 1 - e),
      sq_nonneg (2*(a+b+c+d+e) - 5)]
  refine ⟨heq, ?_, ?_, ?_, ?_⟩
  · rw [heq]
    exact div_pos one_pos (by linarith)
  · rw [heq, div_le_one (by linarith)]
    linarith
  · rw [heq]
    rw [div_eq_one_iff_eq (by linarith : (1:ℚ) + npVar (TasteVector.scores ⟨a,b,c,d,e⟩) ≠ 0)]
    constructor
    · intro hone
      have hVz : ((a - (a+b+c+d+e)/5)^2 + (b - (a+b+c+d+e)/5)^2 + (c - (a+b+c+d+e)/5)^2 +
          (d - (a+b+c+d+e)/5)^2 + (e - (a+b+c+d+e)/5)^2) / 5 = 0 := by
        rw [← hVeq]; linarith
      have q1 : (a - (a+b+c+d+e)/5)^2 = 0 := by
        linarith [sq_nonneg (a - (a+b+c+d+e)/5), sq_nonneg (b - (a+b+c+d+e)/5),
          sq_nonneg (c - (a+b+c+d+e)/5), sq_nonneg (d - (a+b+c+d+e)/5),
          sq_nonneg (e - (a+b+c+d+e)/5)]
      have q2 : (b - (a+b+c+d+e)/5)^2 = 0 := by
        linarith [sq_nonneg (a - (a+b+c+d+e)/5), sq_nonneg (b - (a+b+c+d+e)/5),
          sq_nonneg (c - (a+b+c+d+e)/5), sq_nonneg (d - (a+b+c+d+e)/5),
          sq_nonneg (e - (a+b+c+d+e)/5)]
      have q3 : (c - (a+b+c+d+e)/5)^2 = 0 := by
        linarith [sq_nonneg (a - (a+b+c+d+e)/5), sq_nonneg (b - (a+b+c+d+e)/5),
          sq_nonneg (c - (a+b+c+d+e)/5), sq_nonneg (d - (a+b+c+d+e)/5),
          sq_nonneg (e - (a+b+c+d+e)/5)]
      have q4 : (d - (a+b+c+d+e)/5)^2 = 0 := by
        linarith [sq_nonneg (a - (a+b+c+d+e)/5), sq_nonneg (b - (a+b+c+d+e)/5),
          sq_nonneg (c - (a+b+c+d+e)/5), sq_nonneg (d - (a+b+c+d+e)/5),
          sq_nonneg (e - (a+b+c+d+e)/5)]
      have q5 : (e - (a+b+c+d+e)/5)^2 = 0 := by
        linarith [sq_nonneg (a - (a+b+c+d+e)/5), sq_nonneg (b - (a+b+c+d+e)/5),
          sq_nonneg (c - (a+b+c+d+e)/5), sq_nonneg (d - (a+b+c+d+e)/5),
          sq_nonneg (e - (a+b+c+d+e)/5)]
      have ea := sub_eq_zero.mp (sq_eq_zero_iff.mp q1)
      have eb := sub_eq_zero.mp (sq_eq_zero_iff.mp q2)
      have ec := sub_eq_zero.mp (sq_eq_zero_iff.mp q3)
      have ed := sub_eq_zero.mp (sq_eq_zero_iff.mp q4)
      have ee := sub_eq_zero.mp (sq_eq_zero_iff.mp q5)
      exact ⟨by linarith, by linarith, by linarith, by linarith⟩
    · rintro ⟨hb, hc, hd, he⟩
      simp only at hb hc hd he
      subst hb; subst hc; subst hd; subst he
      rw [hVeq]
      ring
  · rw [heq, le_div_iff₀ (by linarith)]
    nlinarith [hV4]

/-- C1 witness: the amended theorem applied to the flat 0.5 vector. -/
theorem overall_balance_properties_witness :
    computeOverallBalance exHalf = 1 / (1 + npVar exHalf.scores) ∧
    0 < computeOverallBalance exHalf ∧
    computeOverallBalance exHalf ≤ 1 ∧
    (computeOverallBalance exHalf = 1 ↔
      (exHalf.sour = exHalf.sweet ∧ exHalf.bitter = exHalf.sweet ∧
       exHalf.savory = exHalf.sweet ∧ exHalf.aromatic = exHalf.sweet)) ∧
    4 / 5 ≤ computeOverallBalance exHalf :=
  overall_balance_properties exHalf (by norm_num [exHalf]) (by norm_num [exHalf])
    (by norm_num [exHalf]) (by norm_num [exHalf]) (by norm_num [exHalf])
    (by norm_num [exHalf, tvZero])

/-! ### C2 — the spec's worked aggregation example -/

/-- C2 counterexample: the aggregation of the spec's example (two
molecule-bearing ingredients, `num_molecules = 1` each) is
{sweet 0.45, sour 0.45, 0, 0, 0} as claimed, but the variance of those
five values is 0.0486 (not 0.081), so the balance is neither
`1/(1+0.081)` nor ≈ 0.925 — it is above 0.95. -/
theorem example_cocktail_variance_counterexample :
    aggregateProfiles [⟨1, ⟨9/10, 0, 0, 0, 0⟩⟩, ⟨1, ⟨0, 9/10, 0, 0, 0⟩⟩] [50, 50] =
      AggregateResult.ok ⟨⟨9/20, 9/20, 0, 0, 0⟩, 100⟩ ∧
    npVar (TasteVector.scores ⟨9/20, 9/20, 0, 0, 0⟩) ≠ 81/1000 ∧
    computeOverallBalance ⟨9/20, 9/20, 0, 0, 0⟩ ≠ 1 / (1 + 81/1000) ∧
    ¬ (computeOverallBalance ⟨9/20, 9/20, 0, 0, 0⟩ < 93/100) := by
  norm_num [aggregateProfiles, effectiveVolumes, npAvgWeights, List.filter,
    List.zip, List.zipWith, List.foldl, TasteVector.addScaled, tvZero, npVar,
    npMean, TasteVector.scores, computeOverallBalance]

/-- C2 (amended): ingredient A (sweet 0.9) at 50 ml and ingredient B
(sour 0.9) at 50 ml aggregate to {sweet 0.45, sour 0.45, 0, 0, 0}; the
population variance of those five values is 0.0486, and the overall
balance is `1/(1+0.0486) = 5000/5243 ≈ 0.9536`. -/
theorem example_cocktail_aggregation :
    aggregateProfiles [⟨1, ⟨9/10, 0, 0, 0, 0⟩⟩, ⟨1, ⟨0, 9/10, 0, 0, 0⟩⟩] [50, 50] =
      AggregateResult.ok ⟨⟨9/20, 9/20, 0, 0, 0⟩, 100⟩ ∧
    npVar (TasteVector.scores ⟨9/20, 9/20, 0, 0, 0⟩) = 243/5000 ∧
    computeOverallBalance ⟨9/20, 9/20, 0, 0, 0⟩ = 5000/5243 ∧
    9536/10000 < computeOverallBalance ⟨9/20, 9/20, 0, 0, 0⟩ ∧
    computeOverallBalance ⟨9/20, 9/20, 0, 0, 0⟩ < 9537/10000 := by
  norm_num [aggregateProfiles, effectiveVolumes, npAvgWeights, List.filter,
    List.zip, List.zipWith, List.foldl, TasteVector.addScaled, tvZero, npVar,
    npMean, TasteVector.scores, computeOverallBalance]

/-! ### C3, C9, C10 — thresholds and weight invariants -/

lemma sum_map_div (l : List ℚ) (t : ℚ) : (l.map fun x => x / t).sum = l.sum / t := by
  induction l with
  | nil => simp
  | cons x xs ih => simp [ih, add_div]

/-- C3: for every cocktail whose analysis succeeds with overall balance at
least 0.98, `recommend_improvements` (v2) returns the empty recommendation
list together with the "excellently balanced" message — in particular it
returns no suggestion at all, so never a zero- or minimum-clamped-amount
one. -/
theorem excellent_balance_no_recommendations
    (profileOf : String → IngredientProfile) (db : List Cocktail) (name : String)
    (target : Option String) (a : Analysis)
    (ha : analyzeCocktail profileOf db name = Except.ok a)
    (hb : (0.98 : ℚ) ≤ a.overall_balance) :
    recommendImprovementsV2 profileOf db name target =
      Except.ok ⟨name, a.balance_scores, a.overall_balance,
        some "Cocktail is already excellently balanced! No changes recommended.",
        [], []⟩ := by
  have hsm : shouldRecommendChanges a.overall_balance a.balance_scores =
      (false, "Cocktail is already excellently balanced! No changes recommended.") := by
    unfold shouldRecommendChanges
    rw [if_pos hb]
  simp [recommendImprovementsV2, ha, hsm]

/-- C10: for every cocktail whose overall balance lies in [0.95, 0.98) and
whose every taste dimension deviates from the mean by less than 0.25, both
v2's and v3's `recommend_improvements` return the empty recommendation
list with the "very well balanced" message — a suppression gate beyond the
0.98 threshold. -/
theorem very_balanced_suppression
    (profileOf : String → IngredientProfile) (db : List Cocktail) (name : String)
    (target : Option String) (a : Analysis)
    (ha : analyzeCocktail profileOf db name = Except.ok a)
    (hlo : (0.95 : ℚ) ≤ a.overall_balance) (hhi : a.overall_balance < 0.98)
    (hdev : ∀ d : Dim, |a.balance_scores.get d - npMean a.balance_scores.scores| < 0.25) :
    recommendImprovementsV2 profileOf db name target =
      Except.ok ⟨name, a.balance_scores, a.overall_balance,
        some "Cocktail is very well balanced. Only minor refinements possible.",
        [], []⟩ ∧
    recommendImprovementsV3 profileOf db name target =
      Except.ok ⟨name, a.balance_scores, a.overall_balance,
        some "Cocktail is very well balanced. Only minor refinements possible.",
        [], []⟩ := by
  have hmax : maxAbsDev a.balance_scores < 0.25 := by
    simp only [maxAbsDev, TasteVector.scores, List.map_cons, List.map_nil,
      List.foldl_cons, List.foldl_nil]
    exact max_lt (max_lt (max_lt (max_lt (max_lt (by norm_num) (hdev Dim.sweet))
      (hdev Dim.sour)) (hdev Dim.bitter)) (hdev Dim.savory)) (hdev Dim.aromatic)
  have hsm : shouldRecommendChanges a.overall_balance a.balance_scores =
      (false, "Cocktail is very well balanced. Only minor refinements possible.") := by
    unfold shouldRecommendChanges
    rw [if_neg (not_le.mpr hhi), if_pos ⟨hlo, hmax⟩]
  constructor
  · simp [recommendImprovementsV2, ha, hsm]
  · simp [recommendImprovementsV3, ha, hsm]

/-- The zip-filtered weights list of `np.average` is as long as its
profile-filtered values list whenever the volume list is as long as the
profile list. -/
lemma filter_zip_length (profiles : List IngredientProfile) :
    ∀ volumes : List ℚ, volumes.length = profiles.length →
      ((profiles.zip volumes).filter fun pv => decide (0 < pv.1.num_molecules)).length =
        (profiles.filter fun p => decide (0 < p.num_molecules)).length := by
  induction profiles with
  | nil =>
    intro volumes _
    simp
  | cons p ps ih =>
    intro volumes h
    cases volumes with
    | nil => simp at h
    | cons v vs =>
      simp only [List.length_cons, Nat.succ.injEq] at h
      simp only [List.zip_cons_cons, List.filter_cons]
      by_cases hp : 0 < p.num_molecules
      · simp [hp, ih vs h]
      · simp [hp, ih vs h]

/-- After the zero-total fallback the volume list is as long as the
profile list (given per-ingredient volumes). -/
lemma effectiveVolumes_fst_length (profiles : List IngredientProfile) (volumes : List ℚ)
    (h : volumes.length = profiles.length) :
    (effectiveVolumes profiles.length volumes).1.length = profiles.length := by
  unfold effectiveVolumes
  by_cases h0 : volumes.sum = 0
  · simp [h0]
  · simp [h0, h]

/-- C9 (code bug): the taste-vector weighting of `_aggregate_profiles` is
safe as claimed — the divisor is never zero for a non-empty profile list,
the weights always sum to 1, they are `volume_i/total` when the total is
non-zero and the uniform `1/n` fallback when it is zero, and an empty
profile list returns `{}` without computing any weight — but aggregation
as a whole does NOT "never divide by zero": with per-ingredient volumes
it succeeds exactly when the `np.average` weights (the post-fallback
volumes of the molecule-bearing ingredients) have non-zero sum, and
raises `ZeroDivisionError` when they sum to zero — in particular for a
single ingredient without molecular data, both at total volume 0 (the
claim's own zero-total arm, fourth conjunct) and at total volume 50
(fifth conjunct). -/
theorem volume_weight_invariants :
    (∀ (profiles : List IngredientProfile) (volumes : List ℚ), profiles ≠ [] →
      (effectiveVolumes profiles.length volumes).2 ≠ 0 ∧
      (volumeWeights profiles.length volumes).sum = 1 ∧
      (volumes.sum ≠ 0 → volumeWeights profiles.length volumes =
        volumes.map fun v => v / volumes.sum) ∧
      (volumes.sum = 0 → volumeWeights profiles.length volumes =
        List.replicate profiles.length (1 / (profiles.length : ℚ)))) ∧
    (∀ volumes : List ℚ, aggregateProfiles [] volumes = AggregateResult.emptyDict) ∧
    (∀ (profiles : List IngredientProfile) (volumes : List ℚ), profiles ≠ [] →
      volumes.length = profiles.length →
      ((npAvgWeights profiles volumes).sum ≠ 0 →
        ∃ agg, aggregateProfiles profiles volumes = AggregateResult.ok agg) ∧
      ((npAvgWeights profiles volumes).sum = 0 →
        aggregateProfiles profiles volumes = AggregateResult.zeroDivisionError)) ∧
    aggregateProfiles [⟨0, tvZero⟩] [0] = AggregateResult.zeroDivisionError ∧
    aggregateProfiles [⟨0, tvZero⟩] [50] = AggregateResult.zeroDivisionError := by
  refine ⟨?_, ?_, ?_, ?_, ?_⟩
  · intro profiles volumes hne
    have hlen : (0:ℚ) < (profiles.length : ℚ) := by
      exact_mod_cast List.length_pos.mpr hne
    by_cases h0 : volumes.sum = 0
    · refine ⟨?_, ?_, ?_, ?_⟩
      · simp only [effectiveVolumes, h0, if_pos]
        exact hlen.ne.symm
      · simp only [volumeWeights, effectiveVolumes, h0, if_pos, List.map_replicate,
          List.sum_replicate, nsmul_eq_mul]
        field_simp
      · intro h
        exact absurd h0 h
      · intro _
        simp only [volumeWeights, effectiveVolumes, h0, if_pos, List.map_replicate]
    · refine ⟨?_, ?_, ?_, ?_⟩
      · simp only [effectiveVolumes, if_neg h0]
        exact h0
      · simp only [volumeWeights, effectiveVolumes, if_neg h0]
        rw [sum_map_div, div_self h0]
      · intro _
        simp only [volumeWeights, effectiveVolumes, if_neg h0]
      · intro h
        exact absurd h h0
  · intro volumes
    rfl
  · intro profiles volumes hne hlen
    have hcount : (profiles.filter fun p => decide (0 < p.num_molecules)).length =
        (npAvgWeights profiles volumes).length := by
      unfold npAvgWeights
      rw [List.length_map]
      exact (filter_zip_length profiles _
        (effectiveVolumes_fst_length profiles volumes hlen)).symm
    obtain ⟨p, ps, rfl⟩ := List.exists_cons_of_ne_nil hne
    constructor
    · intro hsum
      simp only [aggregateProfiles, List.isEmpty_cons, Bool.false_eq_true, if_false]
      rw [if_neg (not_ne_iff.mpr hcount), if_neg hsum]
      exact ⟨_, rfl⟩
    · intro hsum
      simp only [aggregateProfiles, List.isEmpty_cons, Bool.false_eq_true, if_false]
      rw [if_neg (not_ne_iff.mpr hcount), if_pos hsum]
  · norm_num [aggregateProfiles, effectiveVolumes, npAvgWeights, List.filter, tvZero]
  · norm_num [aggregateProfiles, effectiveVolumes, npAvgWeights, List.filter, tvZero]

/-! ### C6, C7 — imbalance detection -/

lemma gtKStd_eq_true_iff (score mean var k : ℚ) (hv : 0 ≤ var) (hk : 0 ≤ k) :
    gtKStd score mean var k = true ↔
      ((mean : ℝ) + (k : ℝ) * Real.sqrt (var : ℝ) < (score : ℝ)) := by
  unfold gtKStd
  rw [Bool.and_eq_true, decide_eq_true_eq, decide_eq_true_eq]
  have hB0 : (0:ℝ) ≤ (k:ℝ) * Real.sqrt (var:ℝ) :=
    mul_nonneg (by exact_mod_cast hk) (Real.sqrt_nonneg _)
  have hBsq : ((k:ℝ) * Real.sqrt (var:ℝ))^2 = (k:ℝ)^2 * (var:ℝ) := by
    rw [mul_pow, Real.sq_sqrt (by exact_mod_cast hv)]
  constructor
  · rintro ⟨hml, hsq⟩
    have hsm : (0:ℝ) < (score:ℝ) - (mean:ℝ) := by
      have : (mean:ℝ) < (score:ℝ) := by exact_mod_cast hml
      linarith
    have h2 : ((k:ℝ) * Real.sqrt (var:ℝ))^2 < ((score:ℝ) - (mean:ℝ))^2 := by
      rw [hBsq]
      exact_mod_cast hsq
    have := lt_of_pow_lt_pow_left₀ 2 (le_of_lt hsm) h2
    linarith
  · intro h
    have hml : (mean:ℝ) < (score:ℝ) := by linarith
    refine ⟨by exact_mod_cast hml, ?_⟩
    have h1 : (k:ℝ) * Real.sqrt (var:ℝ) < (score:ℝ) - (mean:ℝ) := by linarith
    have h2 := pow_lt_pow_left₀ h1 hB0 two_ne_zero
    rw [hBsq] at h2
    exact_mod_cast h2

lemma ltKStd_eq_true_iff (score mean var k : ℚ) (hv : 0 ≤ var) (hk : 0 ≤ k) :
    ltKStd score mean var k = true ↔
      ((score : ℝ) < (mean : ℝ) - (k : ℝ) * Real.sqrt (var : ℝ)) := by
  unfold ltKStd
  rw [Bool.and_eq_true, decide_eq_true_eq, decide_eq_true_eq]
  have hB0 : (0:ℝ) ≤ (k:ℝ) * Real.sqrt (var:ℝ) :=
    mul_nonneg (by exact_mod_cast hk) (Real.sqrt_nonneg _)
  have hBsq : ((k:ℝ) * Real.sqrt (var:ℝ))^2 = (k:ℝ)^2 * (var:ℝ) := by
    rw [mul_pow, Real.sq_sqrt (by exact_mod_cast hv)]
  constructor
  · rintro ⟨hml, hsq⟩
    have hsm : (0:ℝ) < (mean:ℝ) - (score:ℝ) := by
      have : (score:ℝ) < (mean:ℝ) := by exact_mod_cast hml
      linarith
    have h2 : ((k:ℝ) * Real.sqrt (var:ℝ))^2 < ((mean:ℝ) - (score:ℝ))^2 := by
      rw [hBsq]
      exact_mod_cast hsq
    have := lt_of_pow_lt_pow_left₀ 2 (le_of_lt hsm) h2
    linarith
  · intro h
    have hml : (score:ℝ) < (mean:ℝ) := by linarith
    refine ⟨by exact_mod_cast hml, ?_⟩
    have h1 : (k:ℝ) * Real.sqrt (var:ℝ) < (mean:ℝ) - (score:ℝ) := by linarith
    have h2 := pow_lt_pow_left₀ h1 hB0 two_ne_zero
    rw [hBsq] at h2
    exact_mod_cast h2

lemma mem_allDims (d : Dim) : d ∈ allDims := by
  cases d <;> simp [allDims]

lemma ltKStd_gtKStd_false {score mean var k : ℚ} (h : ltKStd score mean var k = true) :
    gtKStd score mean var k = false := by
  unfold ltKStd at h
  unfold gtKStd
  rw [Bool.and_eq_true, decide_eq_true_eq] at h
  simp only [Bool.and_eq_false_iff, decide_eq_false_iff_not, not_lt]
  left
  linarith [h.1]

lemma mem_identifyImbalances_high (k : ℚ) (v : TasteVector) (d : Dim) :
    ((⟨d, IssueType.too_high, Priority.medium, some (v.get d)⟩ : Imbalance) ∈
        identifyImbalances k v none) ↔
      gtKStd (v.get d) (npMean v.scores) (npVar v.scores) k = true := by
  unfold identifyImbalances
  simp only [List.nil_append, List.mem_filterMap]
  constructor
  · rintro ⟨a, -, hfa⟩
    by_cases hg : gtKStd (v.get a) (npMean v.scores) (npVar v.scores) k = true
    · simp only [hg, if_true, Option.some.injEq, Imbalance.mk.injEq] at hfa
      obtain ⟨rfl, -, -, -⟩ := hfa
      exact hg
    · rw [Bool.not_eq_true] at hg
      by_cases hl : (ltKStd (v.get a) (npMean v.scores) (npVar v.scores) k &&
          decide (v.get a < 0.3)) = true
      · simp only [hg, hl, Bool.false_eq_true, if_false, if_true, Option.some.injEq,
          Imbalance.mk.injEq] at hfa
        exact absurd hfa.2.1 (by simp)
      · rw [Bool.not_eq_true] at hl
        simp only [hg, hl, Bool.false_eq_true, if_false] at hfa
        exact absurd hfa (by simp)
  · intro hg
    exact ⟨d, mem_allDims d, by simp [hg]⟩

lemma mem_identifyImbalances_low (k : ℚ) (v : TasteVector) (d : Dim) :
    ((⟨d, IssueType.too_low, Priority.medium, some (v.get d)⟩ : Imbalance) ∈
        identifyImbalances k v none) ↔
      (ltKStd (v.get d) (npMean v.scores) (npVar v.scores) k = true ∧
        v.get d < 0.3) := by
  unfold identifyImbalances
  simp only [List.nil_append, List.mem_filterMap]
  constructor
  · rintro ⟨a, -, hfa⟩
    by_cases hg : gtKStd (v.get a) (npMean v.scores) (npVar v.scores) k = true
    · simp only [hg, if_true, Option.some.injEq, Imbalance.mk.injEq] at hfa
      exact absurd hfa.2.1 (by simp)
    · rw [Bool.not_eq_true] at hg
      by_cases hl : (ltKStd (v.get a) (npMean v.scores) (npVar v.scores) k &&
          decide (v.get a < 0.3)) = true
      · simp only [hg, hl, Bool.false_eq_true, if_false, if_true, Option.some.injEq,
          Imbalance.mk.injEq] at hfa
        obtain ⟨rfl, -, -, -⟩ := hfa
        rw [Bool.and_eq_true, decide_eq_true_eq] at hl
        exact hl
      · rw [Bool.not_eq_true] at hl
        simp only [hg, hl, Bool.false_eq_true, if_false] at hfa
        exact absurd hfa (by simp)
  · rintro ⟨hl, hf⟩
    refine ⟨d, mem_allDims d, ?_⟩
    rw [ltKStd_gtKStd_false hl]
    simp [hl, hf]

/-- C6: with no caller-supplied target, the detector flags dimension `d`
`too_high` exactly when its score exceeds `mean + k·std` and `too_low`
exactly when its score is below `mean - k·std` and below the absolute
floor 0.3 — for the deployed sensitivities k = 1 (`optimizer.py`) and
k = 0.7 (`optimizer_v2.py` / `optimizer_v3.py`), with `std` the real
square root of the population variance. -/
theorem imbalance_detector_statistics (v : TasteVector) (d : Dim) :
    ((⟨d, IssueType.too_high, Priority.medium, some (v.get d)⟩ : Imbalance) ∈
        identifyImbalances 1 v none ↔
      ((npMean v.scores : ℝ) + 1 * Real.sqrt ((npVar v.scores : ℚ) : ℝ) <
        ((v.get d : ℚ) : ℝ))) ∧
    ((⟨d, IssueType.too_low, Priority.medium, some (v.get d)⟩ : Imbalance) ∈
        identifyImbalances 1 v none ↔
      (((v.get d : ℚ) : ℝ) < (npMean v.scores : ℝ) -
          1 * Real.sqrt ((npVar v.scores : ℚ) : ℝ) ∧
        v.get d < 0.3)) ∧
    ((⟨d, IssueType.too_high, Priority.medium, some (v.get d)⟩ : Imbalance) ∈
        identifyImbalances 0.7 v none ↔
      ((npMean v.scores : ℝ) + 0.7 * Real.sqrt ((npVar v.scores : ℚ) : ℝ) <
        ((v.get d : ℚ) : ℝ))) ∧
    ((⟨d, IssueType.too_low, Priority.medium, some (v.get d)⟩ : Imbalance) ∈
        identifyImbalances 0.7 v none ↔
      (((v.get d : ℚ) : ℝ) < (npMean v.scores : ℝ) -
          0.7 * Real.sqrt ((npVar v.scores : ℚ) : ℝ) ∧
        v.get d < 0.3)) := by
  have hv := npVar_nonneg v.scores
  refine ⟨?_, ?_, ?_, ?_⟩
  · rw [mem_identifyImbalances_high, gtKStd_eq_true_iff _ _ _ _ hv (by norm_num)]
    push_cast
    tauto
  · rw [mem_identifyImbalances_low, and_congr_left_iff]
    intro _
    rw [ltKStd_eq_true_iff _ _ _ _ hv (by norm_num)]
    push_cast
    tauto
  · rw [mem_identifyImbalances_high, gtKStd_eq_true_iff _ _ _ _ hv (by norm_num)]
    push_cast
    tauto
  · rw [mem_identifyImbalances_low, and_congr_left_iff]
    intro _
    rw [ltKStd_eq_true_iff _ _ _ _ hv (by norm_num)]
    push_cast
    tauto

/-- C7 counterexample: with taste vector (0, 0.9, 0, 0, 0) and target
"sweeter", `_identify_imbalances` (k = 1) returns the forced sweet
imbalance AND a statistically detected sour `too_high` — two entries, not
only the single forced one, so the statistical test is not bypassed. -/
theorem target_bypass_counterexample :
    identifyImbalances 1 exSourHeavy (some ("sweeter")) =
      [⟨Dim.sweet, IssueType.too_low, Priority.high, none⟩,
       ⟨Dim.sour, IssueType.too_high, Priority.medium, some (9/10)⟩] ∧
    (identifyImbalances 1 exSourHeavy (some ("sweeter"))).length ≠ 1 := by
  have h : identifyImbalances 1 exSourHeavy (some ("sweeter")) =
      [⟨Dim.sweet, IssueType.too_low, Priority.high, none⟩,
       ⟨Dim.sour, IssueType.too_high, Priority.medium, some (9/10)⟩] := by
    norm_num [identifyImbalances, exSourHeavy, targetMap, allDims, List.filterMap,
      gtKStd, ltKStd, TasteVector.scores, TasteVector.get, npVar, npMean]
  exact ⟨h, by rw [h]; simp⟩

/-- C7 (amended): a recognised caller-supplied target injects the forced
imbalance for the requested dimension and direction, with highest
priority, at the head of the result — but the statistical detection still
runs and its findings are appended after it. -/
theorem forced_target_prepends (k : ℚ) (v : TasteVector) (t : String) (d : Dim)
    (dir : String) (h : targetMap t = some (d, dir)) :
    identifyImbalances k v (some t) =
      ⟨d, if dir == "increase" then IssueType.too_low else IssueType.too_high,
        Priority.high, none⟩ :: identifyImbalances k v none := by
  simp [identifyImbalances, h]

/-- C7 witness: the amended theorem at k = 1, vector (0, 0.9, 0, 0, 0)
and target "sweeter". -/
theorem forced_target_prepends_witness :
    identifyImbalances 1 exSourHeavy (some ("sweeter")) =
      ⟨Dim.sweet,
        if ("increase" : String) == "increase" then IssueType.too_low
        else IssueType.too_high,
        Priority.high, none⟩ :: identifyImbalances 1 exSourHeavy none :=
  forced_target_prepends 1 exSourHeavy ("sweeter") Dim.sweet ("increase") (by decide)

/-! ### C8 — the adaptive amount -/

/-- `_calculate_adaptive_amount` is the spec's clamped formula followed by
rounding to one decimal (definitional). -/
lemma calculateAdaptiveAmount_eq_spec (b m vol : ℚ) :
    calculateAdaptiveAmount b m vol =
      roundTo1 (max 5 (min (vol * (0.12 : ℚ) * specBalanceFactor b *
        specSeverityFactor m) 30)) := rfl

/-- C8 counterexample: at balance 0.5, deviation 0.3 and total volume
103 ml the clamped formula gives 12.36 ml but the code returns the rounded
12.4 ml, so the suggested amount does not equal the clamped product
exactly. -/
theorem adaptive_amount_rounding_counterexample :
    calculateAdaptiveAmount (1/2) (3/10) 103 = 62/5 ∧
    max 5 (min ((103 : ℚ) * (0.12 : ℚ) * specBalanceFactor (1/2) *
      specSeverityFactor (3/10)) 30) = 1236/100 ∧
    calculateAdaptiveAmount (1/2) (3/10) 103 ≠
      max 5 (min ((103 : ℚ) * (0.12 : ℚ) * specBalanceFactor (1/2) *
        specSeverityFactor (3/10)) 30) := by
  norm_num [calculateAdaptiveAmount, roundTo1, specBalanceFactor, specSeverityFactor,
    min_def, max_def, round_eq]

/-- C8 (amended): `_calculate_adaptive_amount` returns
`total_volume × 0.12 × balance_factor × severity_factor` clamped into
[5, 30] ml and then rounded to one decimal place, with the spec's step
`balance_factor` and `severity_factor = min(|deviation|/0.3, 2)`; every
recommendation v2 or v3 produces carries exactly that amount for its
flagged dimension's deviation; and at balance 0.80 with deviation exactly
0.3 the pre-clamp amount is `total_volume × 0.12 × 0.75 × 1`. -/
theorem adaptive_amount_formula :
    (∀ b m vol : ℚ, calculateAdaptiveAmount b m vol =
      roundTo1 (max 5 (min (vol * (0.12 : ℚ) * specBalanceFactor b *
        specSeverityFactor m) 30))) ∧
    (∀ (profileOf : String → IngredientProfile) (a : Analysis) (target : Option String)
        (r : RecEntry), r ∈ recEntriesV2 profileOf a target →
      ∃ d : Dim, r.recommendation.amount =
        roundTo1 (max 5 (min (a.total_volume * (0.12 : ℚ) *
          specBalanceFactor a.overall_balance *
          specSeverityFactor |a.balance_scores.get d - npMean a.balance_scores.scores|) 30))) ∧
    (∀ (profileOf : String → IngredientProfile) (a : Analysis) (target : Option String)
        (r : RecEntry), r ∈ recEntriesV3 profileOf a target →
      ∃ d : Dim, r.recommendation.amount =
        roundTo1 (max 5 (min (a.total_volume * (0.12 : ℚ) *
          specBalanceFactor a.overall_balance *
          specSeverityFactor |a.balance_scores.get d - npMean a.balance_scores.scores|) 30))) ∧
    (∀ vol : ℚ, vol * (0.12 : ℚ) * specBalanceFactor (0.8 : ℚ) *
      specSeverityFactor (0.3 : ℚ) = vol * (0.12 : ℚ) * (0.75 : ℚ) * 1) := by
  refine ⟨fun b m vol => calculateAdaptiveAmount_eq_spec b m vol, ?_, ?_, ?_⟩
  · intro profileOf a target r hr
    unfold recEntriesV2 at hr
    rw [List.mem_flatMap] at hr
    obtain ⟨imb, -, hr2⟩ := hr
    rw [List.mem_map] at hr2
    obtain ⟨s, -, rfl⟩ := hr2
    exact ⟨imb.dimension, calculateAdaptiveAmount_eq_spec _ _ _⟩
  · intro profileOf a target r hr
    unfold recEntriesV3 at hr
    rw [List.mem_flatMap] at hr
    obtain ⟨imb, -, hr2⟩ := hr
    rw [List.mem_map] at hr2
    obtain ⟨s, -, rfl⟩ := hr2
    exact ⟨imb.dimension, calculateAdaptiveAmount_eq_spec _ _ _⟩
  · intro vol
    norm_num [specBalanceFactor, specSeverityFactor, min_def]

/-! ### C4 — multi-candidate selection -/

section SelectorLemmas

variable {α : Type} (key : α → ℚ)

lemma find?_congr_on {p q : α → Bool} :
    ∀ {l : List α}, (∀ a ∈ l, p a = q a) → l.find? p = l.find? q := by
  intro l
  induction l with
  | nil => intro _; rfl
  | cons x xs ih =>
    intro h
    simp only [List.find?]
    rw [← h x (List.mem_cons_self x xs)]
    cases hp : p x
    · exact ih fun a ha => h a (List.mem_cons_of_mem _ ha)
    · rfl

lemma exists_dominating (x : α) : ∀ l : List α, ∃ c ∈ x :: l, ∀ d ∈ x :: l, key d ≤ key c := by
  intro l
  induction l generalizing x with
  | nil =>
    exact ⟨x, List.mem_cons_self x [], by intro d hd; rw [List.mem_singleton] at hd; rw [hd]⟩
  | cons y ys ih =>
    obtain ⟨c, hcm, hcd⟩ := ih y
    by_cases hxc : key x ≤ key c
    · refine ⟨c, List.mem_cons_of_mem _ hcm, ?_⟩
      intro d hd
      rcases List.mem_cons.mp hd with rfl | hd2
      · exact hxc
      · exact hcd d hd2
    · refine ⟨x, List.mem_cons_self _ _, ?_⟩
      intro d hd
      rcases List.mem_cons.mp hd with rfl | hd2
      · exact le_refl _
      · exact le_trans (hcd d hd2) (le_of_not_le hxc)

lemma firstArgmax_isSome (x : α) (l : List α) :
    ∃ b, firstArgmax key (x :: l) = some b := by
  obtain ⟨c, hcm, hcd⟩ := exists_dominating key x l
  have : ((x :: l).find? fun c => (x :: l).all fun d => decide (key d ≤ key c)).isSome := by
    rw [List.find?_isSome]
    exact ⟨c, hcm, by rw [List.all_eq_true]; intro d hd; simpa using hcd d hd⟩
  obtain ⟨b, hb⟩ := Option.isSome_iff_exists.mp this
  exact ⟨b, hb⟩

lemma firstArgmax_mem {l : List α} {b : α} (h : firstArgmax key l = some b) : b ∈ l :=
  List.mem_of_find?_eq_some h

lemma firstArgmax_le {l : List α} {b : α} (h : firstArgmax key l = some b) :
    ∀ c ∈ l, key c ≤ key b := by
  intro c hc
  have hp := List.find?_some h
  rw [List.all_eq_true] at hp
  simpa using hp c hc

lemma firstArgmax_cons (x : α) (xs : List α) :
    firstArgmax key (x :: xs) =
      match firstArgmax key xs with
      | none => some x
      | some b => if key x < key b then some b else some x := by
  cases hxs : firstArgmax key xs with
  | none =>
    have hnil : xs = [] := by
      by_contra hne
      obtain ⟨z, zs, rfl⟩ := List.exists_cons_of_ne_nil hne
      obtain ⟨b, hb⟩ := firstArgmax_isSome key z zs
      rw [hxs] at hb
      exact Option.noConfusion hb
    subst hnil
    simp [firstArgmax, List.find?, List.all]
  | some b =>
    have hbm := firstArgmax_mem key hxs
    have hbd := firstArgmax_le key hxs
    by_cases hxb : key x < key b
    · have hpx : ((x :: xs).all fun d => decide (key d ≤ key x)) = false := by
        rw [List.all_eq_false]
        exact ⟨b, List.mem_cons_of_mem _ hbm, by simp [not_le.mpr hxb]⟩
      have step : firstArgmax key (x :: xs) =
          xs.find? fun c => (x :: xs).all fun d => decide (key d ≤ key c) := by
        simp only [firstArgmax, List.find?, hpx]
      rw [step]
      have hcongr : (xs.find? fun c => (x :: xs).all fun d => decide (key d ≤ key c)) =
          xs.find? fun c => xs.all fun d => decide (key d ≤ key c) := by
        apply find?_congr_on
        intro a ha
        simp only [List.all_cons]
        cases hq : xs.all fun d => decide (key d ≤ key a)
        · simp
        · rw [List.all_eq_true] at hq
          have hba : key b ≤ key a := by simpa using hq b hbm
          simp [le_of_lt (lt_of_lt_of_le hxb hba)]
      rw [hcongr]
      have hfa : (xs.find? fun c => xs.all fun d => decide (key d ≤ key c)) = some b := hxs
      rw [hfa]
      exact (if_pos hxb).symm
    · have hpx : ((x :: xs).all fun d => decide (key d ≤ key x)) = true := by
        rw [List.all_eq_true]
        intro d hd
        rcases List.mem_cons.mp hd with rfl | hd2
        · simp
        · simp [le_trans (hbd d hd2) (le_of_not_lt hxb)]
      simp only [firstArgmax, List.find?, hpx, if_neg hxb]

lemma pyMaxBy_eq_firstArgmax (x : α) (xs : List α) :
    some (pyMaxBy key x xs) = firstArgmax key (x :: xs) := by
  induction xs generalizing x with
  | nil =>
    rw [firstArgmax_cons]
    simp [pyMaxBy, firstArgmax, List.find?]
  | cons y ys ih =>
    have lhs : pyMaxBy key x (y :: ys) = pyMaxBy key (if key x < key y then y else x) ys := rfl
    rw [lhs, ih]
    rw [firstArgmax_cons key x (y :: ys), firstArgmax_cons key y ys,
      firstArgmax_cons key (if key x < key y then y else x) ys]
    cases hys : firstArgmax key ys with
    | none =>
      by_cases h1 : key x < key y
      · simp [h1]
      · simp [h1]
    | some b =>
      by_cases h1 : key x < key y
      · rw [if_pos h1]
        dsimp only
        by_cases h2 : key y < key b
        · rw [if_pos h2]
          dsimp only
          rw [if_pos (lt_trans h1 h2)]
        · rw [if_neg h2]
          dsimp only
          rw [if_pos h1]
      · rw [if_neg h1]
        dsimp only
        by_cases h2 : key y < key b
        · rw [if_pos h2]
        · rw [if_neg h2]
          dsimp only
          rw [if_neg h1, if_neg (by linarith [le_of_not_lt h1, le_of_not_lt h2])]

lemma head?_insertDescBy (x : α) (l : List α) :
    (insertDescBy key x l).head? =
      match l.head? with
      | none => some x
      | some y => if key x < key y then some y else some x := by
  cases l with
  | nil => rfl
  | cons y ys =>
    simp only [insertDescBy, List.head?_cons]
    by_cases h1 : key x < key y
    · simp [h1]
    · simp [h1]

lemma head?_sortDescBy (l : List α) :
    (sortDescBy key l).head? = firstArgmax key l := by
  induction l with
  | nil => rfl
  | cons x xs ih =>
    rw [show sortDescBy key (x :: xs) = insertDescBy key x (sortDescBy key xs) from rfl]
    rw [head?_insertDescBy, firstArgmax_cons, ← ih]

lemma pyMaxBy_cases (acc : α) : ∀ l : List α,
    pyMaxBy key acc l = acc ∨
      (pyMaxBy key acc l ∈ l ∧ key acc < key (pyMaxBy key acc l)) := by
  intro l
  induction l generalizing acc with
  | nil => exact Or.inl rfl
  | cons y ys ih =>
    have lhs : pyMaxBy key acc (y :: ys) = pyMaxBy key (if key acc < key y then y else acc) ys := rfl
    rw [lhs]
    by_cases h1 : key acc < key y
    · rw [if_pos h1]
      rcases ih y with h | ⟨hm, hk⟩
      · rw [h]
        exact Or.inr ⟨List.mem_cons_self _ _, h1⟩
      · exact Or.inr ⟨List.mem_cons_of_mem _ hm, lt_trans h1 hk⟩
    · rw [if_neg h1]
      rcases ih acc with h | ⟨hm, hk⟩
      · exact Or.inl h
      · exact Or.inr ⟨List.mem_cons_of_mem _ hm, hk⟩

lemma key_le_pyMaxBy (acc : α) (l : List α) : key acc ≤ key (pyMaxBy key acc l) := by
  rcases pyMaxBy_cases key acc l with h | ⟨-, hk⟩
  · rw [h]
  · exact le_of_lt hk

lemma pyMaxBy_ge_all (acc : α) : ∀ (l : List α), ∀ c ∈ acc :: l,
    key c ≤ key (pyMaxBy key acc l) := by
  intro l
  induction l generalizing acc with
  | nil =>
    intro c hc
    rw [List.mem_singleton] at hc
    rw [hc]
    exact le_refl _
  | cons y ys ih =>
    intro c hc
    have lhs : pyMaxBy key acc (y :: ys) = pyMaxBy key (if key acc < key y then y else acc) ys := rfl
    rw [lhs]
    have hacc : key acc ≤ key (if key acc < key y then y else acc) := by
      by_cases h1 : key acc < key y
      · rw [if_pos h1]; exact le_of_lt h1
      · rw [if_neg h1]
    have hy : key y ≤ key (if key acc < key y then y else acc) := by
      by_cases h1 : key acc < key y
      · rw [if_pos h1]
      · rw [if_neg h1]; exact le_of_not_lt h1
    rcases List.mem_cons.mp hc with rfl | hc2
    · exact le_trans hacc (key_le_pyMaxBy key _ ys)
    · rcases List.mem_cons.mp hc2 with rfl | hc3
      · exact le_trans hy (key_le_pyMaxBy key _ ys)
      · exact ih _ c (List.mem_cons_of_mem _ hc3)

lemma pyMaxBy_first_rank (g : α → ℕ) : ∀ (l : List α) (acc : α),
    (acc :: l).Pairwise (fun p q => g p < g q) →
    ∀ x ∈ acc :: l, key x = key (pyMaxBy key acc l) →
      g (pyMaxBy key acc l) ≤ g x := by
  intro l
  induction l with
  | nil =>
    intro acc _ x hx _
    rw [List.mem_singleton] at hx
    rw [hx]
    exact le_refl _
  | cons y ys ih =>
    intro acc hpw x hx hkey
    rw [List.pairwise_cons] at hpw
    obtain ⟨hacc, hpw2⟩ := hpw
    have hys : ys.Pairwise fun p q => g p < g q := (List.pairwise_cons.mp hpw2).2
    have hpwacc : (acc :: ys).Pairwise fun p q => g p < g q :=
      List.pairwise_cons.mpr ⟨fun z hz => hacc z (List.mem_cons_of_mem _ hz), hys⟩
    have lhs : pyMaxBy key acc (y :: ys) = pyMaxBy key (if key acc < key y then y else acc) ys := rfl
    rw [lhs] at hkey ⊢
    by_cases h1 : key acc < key y
    · rw [if_pos h1] at hkey ⊢
      rcases List.mem_cons.mp hx with rfl | hx2
      · exfalso
        have h2 : key y ≤ key (pyMaxBy key y ys) := key_le_pyMaxBy key y ys
        rw [← hkey] at h2
        exact absurd h1 (not_lt.mpr h2)
      · exact ih y hpw2 x hx2 hkey
    · rw [if_neg h1] at hkey ⊢
      rcases List.mem_cons.mp hx with rfl | hx2
      · exact ih x hpwacc x (List.mem_cons_self _ _) hkey
      · rcases List.mem_cons.mp hx2 with rfl | hx3
        · rcases pyMaxBy_cases key acc ys with hcase | ⟨-, hk⟩
          · rw [hcase]
            exact le_of_lt (hacc x (List.mem_cons_self _ _))
          · exfalso
            rw [← hkey] at hk
            exact absurd hk (not_lt.mpr (le_of_not_lt h1))
        · exact ih acc hpwacc x (List.mem_cons_of_mem _ hx3) hkey

end SelectorLemmas

/-- C4: v3's `find_best_modification` selection (Python `max` by
improvement) and v4's plausibility ranking (stable descending sort by
`combined_score = improvement × plausibility`, head taken) both return
the FIRST candidate attaining the maximal criterion (`firstArgmax`); and
when the candidates carry strictly increasing ranks (as built, rank =
position + 1), the returned candidate maximises improvement and, among
tied candidates, has the lowest original rank. -/
theorem multi_candidate_selector (c : CandidateV3) (cs : List CandidateV3)
    (table : List (String × ℚ)) (c4 : CandidateV4) (cs4 : List CandidateV4) :
    findBestCandidateV3 (c :: cs) =
      firstArgmax (fun x => x.improvement) (c :: cs) ∧
    (rankRecommendationsWithPlausibility table (c4 :: cs4)).head? =
      firstArgmax (fun s => s.combined_score) (scoreCandidates table (c4 :: cs4)) ∧
    (∀ b, findBestCandidateV3 (c :: cs) = some b →
      (c :: cs).Pairwise (fun p q => p.rank < q.rank) →
      ∀ x ∈ c :: cs, x.improvement ≤ b.improvement ∧
        (x.improvement = b.improvement → b.rank ≤ x.rank)) := by
  refine ⟨?_, ?_, ?_⟩
  · exact pyMaxBy_eq_firstArgmax (fun x => x.improvement) c cs
  · exact head?_sortDescBy (fun s => s.combined_score) (scoreCandidates table (c4 :: cs4))
  · intro b hb hpw x hx
    have hb2 : b = pyMaxBy (fun x => x.improvement) c cs := by
      have : some (pyMaxBy (fun x => x.improvement) c cs) = some b := hb
      exact (Option.some.injEq _ _ ▸ this).symm
    subst hb2
    exact ⟨pyMaxBy_ge_all (fun x => x.improvement) c cs x hx,
      fun he => pyMaxBy_first_rank (fun x => x.improvement) (fun x => x.rank)
        cs c hpw x hx he⟩

/-! ### C5 — unknown-cocktail handling -/

/-- C5: analysis, modification and recommendation all return the explicit
not-found error value for an unknown cocktail name; but
`FlavorOptimizerV4.find_best_modification` first calls
`analyze_cocktail_by_name`, which is not a method of `CocktailAnalyzer`
(first conjunct), so in Python it raises `AttributeError` on every input
instead of reaching its own not-found return. -/
theorem unknown_cocktail_and_missing_method :
    ¬ ("analyze_cocktail_by_name" ∈ cocktailAnalyzerMethods) ∧
    analyzeCocktail (fun _ => ⟨0, tvZero⟩) [] ("Margarita") =
      Except.error (AnalysisError.notFound ("Margarita")) ∧
    modifyCocktailV1 (fun _ => ⟨0, tvZero⟩) [] ("Margarita") [] =
      Except.error (AnalysisError.notFound ("Margarita")) ∧
    recommendImprovementsV2 (fun _ => ⟨0, tvZero⟩) [] ("Margarita") none =
      Except.error (AnalysisError.notFound ("Margarita")) :=
  ⟨by decide, rfl, rfl, rfl⟩

/-! ### Witnesses at concrete inputs -/

/-- C3 witness: the "Perfect" cocktail (flat 0.5 vector, balance 1). -/
theorem excellent_balance_no_recommendations_witness :
    recommendImprovementsV2 profilePerfect dbPerfect ("Perfect") none =
      Except.ok ⟨"Perfect", exHalf, 1,
        some ("Cocktail is already excellently balanced! No changes recommended."),
        [], []⟩ :=
  excellent_balance_no_recommendations profilePerfect dbPerfect ("Perfect") none aPerfect
    (by norm_num [analyzeCocktail, findCocktail, dbPerfect, profilePerfect, aPerfect,
      exHalf, List.find?, aggregateProfiles, npAvgWeights, List.filter, effectiveVolumes,
      List.zip, List.zipWith, List.foldl, TasteVector.addScaled, tvZero,
      computeOverallBalance, TasteVector.scores, npVar, npMean])
    (by norm_num [aPerfect])

/-- C10 witness: the "WellBal" cocktail (balance 1250/1277 ≈ 0.979, all
deviations at most 0.18). -/
theorem very_balanced_suppression_witness :
    (recommendImprovementsV2 profileWell dbWell ("WellBal") none =
      Except.ok ⟨"WellBal", exWell, 1250/1277,
        some ("Cocktail is very well balanced. Only minor refinements possible."),
        [], []⟩) ∧
    (recommendImprovementsV3 profileWell dbWell ("WellBal") none =
      Except.ok ⟨"WellBal", exWell, 1250/1277,
        some ("Cocktail is very well balanced. Only minor refinements possible."),
        [], []⟩) :=
  very_balanced_suppression profileWell dbWell ("WellBal") none aWell
    (by norm_num [analyzeCocktail, findCocktail, dbWell, profileWell, aWell,
      exWell, List.find?, aggregateProfiles, npAvgWeights, List.filter, effectiveVolumes,
      List.zip, List.zipWith, List.foldl, TasteVector.addScaled, tvZero,
      computeOverallBalance, TasteVector.scores, npVar, npMean])
    (by norm_num [aWell]) (by norm_num [aWell])
    (by intro d; cases d <;>
      norm_num [aWell, exWell, TasteVector.get, TasteVector.scores, npMean, abs])

/-- C8 witness: the first recommendation of the "Strong" scenario
(balance 625/706, flagged dimension sweet with deviation 0.72) carries
amount 18 = the rounded clamped formula. -/
theorem adaptive_amount_formula_witness :
    ∃ d : Dim,
      (⟨"sweet is too high", ⟨"lemon juice", 18, ⟨0, 4/5, 0, 0, 0⟩⟩⟩ :
        RecEntry).recommendation.amount =
        roundTo1 (max 5 (min (aStrong.total_volume * (0.12 : ℚ) *
          specBalanceFactor aStrong.overall_balance *
          specSeverityFactor
            |aStrong.balance_scores.get d - npMean aStrong.balance_scores.scores|) 30)) :=
  adaptive_amount_formula.2.1 profileStrong aStrong none _
    (by
      norm_num [recEntriesV2, identifyImbalances, allDims, List.filterMap, gtKStd,
        ltKStd, TasteVector.scores, TasteVector.get, npVar, npMean, List.sum, aStrong,
        exStrong, profileStrong, findCorrectiveIngredients, dimensionIngredientsV2,
        contrastDim, pyLower, sortAscBy, sortDescBy, insertAscBy, insertDescBy,
        List.take, calculateAdaptiveAmount, roundTo1, dimName, issueText,
        List.flatMap, tvZero, min_def, max_def, round_eq, abs]
      simp)

end CocktailIQ
